import Mathlib

/-!
Verification development for the Vulkan playground rendering engine core.

The definitions below are a shallow embedding of the C++ sources
(`src/vk_engine.h`, `src/vk_initializers.h`): pointer identities of
materials and meshes become natural numbers, `size_t` arithmetic becomes
natural-number arithmetic reduced modulo `2 ^ 64` where the C code can
wrap, the GPU API calls that can fail become explicit outcome values, and
the draw dispatch loop becomes a fold over an explicit state record that
mirrors the local variables of `VulkanEngine::draw_objects`.
-/

/-- Machine word size of `size_t` on the 64-bit targets this engine builds for. -/
def WORDSIZE : Nat := 2 ^ 64

/-- Embedding of `VulkanEngine::pad_uniform_buffer_size`. The C code is
`if (minUboAlignment > 0) alignedSize = (alignedSize + minUboAlignment - 1) & ~(minUboAlignment - 1);`
on `size_t` values; the bitwise complement of `minUboAlignment - 1` inside a
64-bit word is `(WORDSIZE - 1) ^^^ (minUboAlignment - 1)`, and the addition
wraps modulo `WORDSIZE`. -/
def pad_uniform_buffer_size (minUboAlignment originalSize : Nat) : Nat :=
  if 0 < minUboAlignment then
    ((originalSize + minUboAlignment - 1) % WORDSIZE) &&&
      ((WORDSIZE - 1) ^^^ (minUboAlignment - 1))
  else originalSize

/-- Specification-side predicate (from the words of the spec, for comparison
with the code embedding): `v` is the smallest multiple of `A` that is `≥ S`. -/
def IsLeastMultipleGE (A S v : Nat) : Prop :=
  A ∣ v ∧ S ≤ v ∧ ∀ w, A ∣ w → S ≤ w → v ≤ w

/-- Embedding of `DeletionQueue::push_function`: `deletors.push_back(function)`.
The queued teardown actions are opaque closures, modelled by an arbitrary type. -/
def push_function {α : Type} (deletors : List α) (f : α) : List α :=
  deletors ++ [f]

/-- Embedding of `DeletionQueue::flush`: iterate the deque from `rbegin()` to
`rend()` calling each stored action, then `clear()`. The first component is
the sequence of actions in the order they are executed, the second is the
queue contents after the flush. -/
def flush {α : Type} (deletors : List α) : List α × List α :=
  (deletors.reverse, [])

/-- Embedding of `RenderObject`. The `mesh` and `material` fields are the
pointer identities (`Mesh*`, `Material*`) used by the sort comparator and the
dispatch loop; the float-valued `transformMatrix` field takes part in no
claim and is omitted. -/
structure RenderObject where
  mesh : Nat
  material : Nat
deriving DecidableEq

/-- Embedding of the comparator lambda in `VulkanEngine::init_scene`:
material pointers first, mesh pointers to break ties. -/
def sortComparator (l r : RenderObject) : Bool :=
  if l.material = r.material then decide (l.mesh < r.mesh)
  else decide (l.material < r.material)

/-- The non-strict order induced by the strict comparator, i.e. the order in
which `std::sort` leaves the sequence: `a` may precede `b` iff the comparator
does not order `b` strictly before `a`. -/
def renderObjLe (a b : RenderObject) : Prop :=
  sortComparator b a = false

instance : DecidableRel renderObjLe :=
  fun a b => instDecidableEqBool (sortComparator b a) false

instance : IsTotal RenderObject renderObjLe := by
  have key : ∀ x y : RenderObject, sortComparator y x = false ↔
      (x.material < y.material ∨ (x.material = y.material ∧ x.mesh ≤ y.mesh)) := by
    intro x y
    simp only [sortComparator]
    rcases Decidable.em (y.material = x.material) with h | h <;> simp [h] <;> omega
  constructor
  intro a b
  simp only [renderObjLe, key]
  omega

instance : IsTrans RenderObject renderObjLe := by
  have key : ∀ x y : RenderObject, sortComparator y x = false ↔
      (x.material < y.material ∨ (x.material = y.material ∧ x.mesh ≤ y.mesh)) := by
    intro x y
    simp only [sortComparator]
    rcases Decidable.em (y.material = x.material) with h | h <;> simp [h] <;> omega
  constructor
  intro a b c hab hbc
  simp only [renderObjLe, key] at *
  omega

/-- Embedding of the `std::sort` call in `VulkanEngine::init_scene`: a sorted
permutation of the input under the comparator order (insertion sort realises
the `std::sort` postcondition). -/
def sortRenderables (l : List RenderObject) : List RenderObject :=
  List.insertionSort renderObjLe l

/-- State of the dispatch loop in `VulkanEngine::draw_objects`: the
`lastMesh` and `lastMaterial` sentinel pointers (initially `nullptr`,
modelled as `none`) and the two bind counters kept by the source. -/
structure DispatchState where
  lastMesh : Option Nat
  lastMaterial : Option Nat
  pipelineBindCount : Nat
  vertexBuffersBindCount : Nat
deriving DecidableEq

/-- One iteration of the dispatch loop body in `VulkanEngine::draw_objects`:
bind pipeline and descriptor sets when the material pointer differs from
`lastMaterial`, then bind the vertex buffer when the mesh pointer differs
from `lastMesh`. -/
def drawStep (s : DispatchState) (o : RenderObject) : DispatchState :=
  let s1 :=
    if some o.material ≠ s.lastMaterial then
      { s with pipelineBindCount := s.pipelineBindCount + 1, lastMaterial := some o.material }
    else s
  if some o.mesh ≠ s1.lastMesh then
    { s1 with vertexBuffersBindCount := s1.vertexBuffersBindCount + 1, lastMesh := some o.mesh }
  else s1

/-- Embedding of the dispatch loop of `VulkanEngine::draw_objects` over the
render-object sequence, starting from null sentinels and zero counters. -/
def draw_objects (objs : List RenderObject) : DispatchState :=
  objs.foldl drawStep ⟨none, none, 0, 0⟩

/-- Number of positions whose value differs from the previously seen value,
starting from the sentinel `last`. With `last = none` this counts the
maximal runs of equal consecutive values of the list. -/
def changesFrom : Option Nat → List Nat → Nat
  | _, [] => 0
  | last, x :: xs => (if some x = last then 0 else 1) + changesFrom (some x) xs

/-- Number of maximal runs of equal consecutive values in a list. -/
def runCount (ids : List Nat) : Nat :=
  changesFrom none ids

/-- Pointer identity of the mesh registered as "monkey". The concrete numbers
chosen for the registry pointers are arbitrary but distinct, as the addresses
in the name-keyed registries are. -/
def mesh_monkey : Nat := 0

/-- Pointer identity of the mesh registered as "wolf". -/
def mesh_wolf : Nat := 1

/-- Pointer identity of the mesh registered as "maleHuman". -/
def mesh_maleHuman : Nat := 2

/-- Pointer identity of the mesh registered as "triangle". -/
def mesh_triangle : Nat := 3

/-- Pointer identity of the mesh registered as "empire". -/
def mesh_empire : Nat := 4

/-- Pointer identity of the material registered as "defaultmesh". -/
def mat_defaultmesh : Nat := 0

/-- Pointer identity of the material registered as "defaultmesh_duplicate". -/
def mat_defaultmesh_duplicate : Nat := 1

/-- Pointer identity of the material registered as "texturedmesh". -/
def mat_texturedmesh : Nat := 2

/-- Embedding of the `_renderables` sequence built by `VulkanEngine::init_scene`
before the sort: monkey, wolf and maleHuman under "defaultmesh", then a
41 by 41 grid of triangles (`x` outer and `y` inner, both from -20 to 20)
under "defaultmesh_duplicate" when `y % 2 == 0` (C truncated remainder) and
"defaultmesh" otherwise, then the map object under "texturedmesh". -/
def init_scene_objects : List RenderObject :=
  [⟨mesh_monkey, mat_defaultmesh⟩, ⟨mesh_wolf, mat_defaultmesh⟩,
   ⟨mesh_maleHuman, mat_defaultmesh⟩]
  ++ ((List.range 41).flatMap (fun _x =>
        (List.range 41).map (fun yi =>
          ⟨mesh_triangle,
           if Int.tmod ((yi : Int) - 20) 2 = 0 then mat_defaultmesh_duplicate
           else mat_defaultmesh⟩)))
  ++ [⟨mesh_empire, mat_texturedmesh⟩]

/-- The `_renderables` sequence after the `std::sort` at the end of
`VulkanEngine::init_scene`. -/
def init_scene_renderables : List RenderObject :=
  sortRenderables init_scene_objects

/-- Embedding of `VulkanEngine::FRAME_OVERLAP`. -/
def FRAME_OVERLAP : Nat := 2

/-- Embedding of `const int frameIndex = _frameNumber % FRAME_OVERLAP` in
`VulkanEngine::draw_objects`. -/
def frameIndex (frameNumber : Nat) : Nat :=
  frameNumber % FRAME_OVERLAP

/-- Size in bytes of `GPUSceneData`: five `glm::vec4` fields of 16 bytes. -/
def sizeofGPUSceneData : Nat := 80

/-- Size in bytes of `GPUObjectData`: one `glm::mat4` of 64 bytes. -/
def sizeofGPUObjectData : Nat := 64

/-- Embedding of `constexpr int MAX_OBJECTS = 10000` in
`VulkanEngine::init_descriptors`. -/
def MAX_OBJECTS : Nat := 10000

/-- Size in bytes of each per-frame object storage buffer:
`sizeof(GPUObjectData) * MAX_OBJECTS` in `VulkanEngine::init_descriptors`. -/
def objectBufferSize : Nat :=
  sizeofGPUObjectData * MAX_OBJECTS

/-- Indices written by the transform-copy loop of `VulkanEngine::draw_objects`:
`for (int i = 0; i < count; i++) objectSSBO[i].modelMatrix = ...` writes every
index below `count`, with no comparison of `count` against the capacity. -/
def objectWriteIndices (count : Nat) : List Nat :=
  List.range count

/-- One past the last byte of the store `objectSSBO[i].modelMatrix = ...`. -/
def objectWriteEnd (i : Nat) : Nat :=
  sizeofGPUObjectData * i + sizeofGPUObjectData

/-- The store to `objectSSBO[i]` stays inside the object storage buffer. -/
def objectWriteInBounds (i : Nat) : Prop :=
  objectWriteEnd i ≤ objectBufferSize

/-- Embedding of the CPU-side scene write offset in `VulkanEngine::draw_objects`:
`sceneData += pad_uniform_buffer_size(sizeof(GPUSceneData)) * frameIndex`.
The alignment and the struct size are parameters of the embedding because the
device reports the former and the compiler fixes the latter. -/
def sceneDataWriteOffset (minUboAlignment sizeofSceneData frameNumber : Nat) : Nat :=
  pad_uniform_buffer_size minUboAlignment sizeofSceneData * frameIndex frameNumber

/-- Embedding of the dynamic offset passed to `vkCmdBindDescriptorSets` in
`VulkanEngine::draw_objects`:
`const uint32_t uniform_offset = pad_uniform_buffer_size(sizeof(GPUSceneData)) * frameIndex`,
truncated to 32 bits by the `uint32_t` conversion. -/
def uniform_offset (minUboAlignment sizeofSceneData frameNumber : Nat) : Nat :=
  (pad_uniform_buffer_size minUboAlignment sizeofSceneData * frameIndex frameNumber) % 2 ^ 32

/-- Embedding of the scene buffer size in `VulkanEngine::init_descriptors`:
`FRAME_OVERLAP * pad_uniform_buffer_size(sizeof(GPUSceneData))`. -/
def sceneParamBufferSize (minUboAlignment sizeofSceneData : Nat) : Nat :=
  FRAME_OVERLAP * pad_uniform_buffer_size minUboAlignment sizeofSceneData

/-- Null Vulkan handle value. -/
def VK_NULL_HANDLE : Nat := 0

/-- Outcome of a Vulkan object-creation call: `VK_SUCCESS` with the created
handle, or any failure code. -/
inductive VkCreateResult where
  | success (handle : Nat)
  | failure
deriving DecidableEq

/-- Result of running a piece of engine code: a returned value together with
the lines it logged, or termination of the process (the `VK_CHECK` path). -/
inductive EngineOutcome (α : Type) where
  | ok (val : α) (log : List String)
  | fatal
deriving DecidableEq

/-- Embedding of the tail of `PipelineBuilder::build_pipeline`: when
`vkCreateGraphicsPipelines` does not return `VK_SUCCESS` the function prints
"failed to create pipeline" and returns `VK_NULL_HANDLE`; otherwise it
returns the new pipeline handle. No path terminates the process. -/
def build_pipeline (createCall : VkCreateResult) : EngineOutcome Nat :=
  match createCall with
  | .failure => .ok VK_NULL_HANDLE ["failed to create pipeline"]
  | .success p => .ok p []

/-- Embedding of `VulkanEngine::load_shader_module`: returns `false` without
touching the out-parameter when the file does not open or when
`vkCreateShaderModule` fails, and returns `true` after assigning the created
module on success. The pair is (returned bool, value stored through
`outShaderModule` if any). -/
def load_shader_module (fileOpened : Bool) (createCall : VkCreateResult) :
    Bool × Option Nat :=
  if fileOpened = false then (false, none)
  else
    match createCall with
    | .failure => (false, none)
    | .success m => (true, some m)

/-- Embedding of the `loadShader` lambda in `VulkanEngine::init_pipelines`:
declares an uninitialized local `VkShaderModule shader` (its indeterminate
initial content is the `uninitShader` parameter), calls
`load_shader_module`, logs an error or a success line, and returns `shader`
either way. No path terminates the process. -/
def loadShader (uninitShader : Nat) (fileOpened : Bool) (createCall : VkCreateResult) :
    EngineOutcome Nat :=
  let r := load_shader_module fileOpened createCall
  let shader : Nat :=
    match r.2 with
    | some m => m
    | none => uninitShader
  if r.1 = false then .ok shader ["Error loading shader module"]
  else .ok shader ["shader successfully loaded"]

set_option maxRecDepth 8000

/-- Bits at position 64 and above of a 64-bit value are clear. -/
theorem testBit_of_ge_64 {x j : Nat} (hx : x < WORDSIZE) (hj : 64 ≤ j) :
    x.testBit j = false :=
  Nat.testBit_lt_two_pow (lt_of_lt_of_le hx (Nat.pow_le_pow_right (by omega) hj))

/-- Masking a 64-bit value with the complement of a low-bit mask clears the
low `k` bits, i.e. rounds down to a multiple of `2 ^ k`. -/
theorem and_high_mask {x k : Nat} (hx : x < WORDSIZE) (hk : k ≤ 64) :
    x &&& ((WORDSIZE - 1) ^^^ (2 ^ k - 1)) = 2 ^ k * (x / 2 ^ k) := by
  apply Nat.eq_of_testBit_eq
  intro j
  rw [Nat.testBit_and, Nat.testBit_xor, WORDSIZE, Nat.testBit_two_pow_sub_one,
    Nat.testBit_two_pow_sub_one, Nat.testBit_mul_pow_two]
  by_cases hj64 : 64 ≤ j
  · have hxj : x.testBit j = false := testBit_of_ge_64 hx hj64
    have hxj2 : x.testBit (k + (j - k)) = false := by
      have hkj : k + (j - k) = j := by omega
      rw [hkj]
      exact hxj
    rw [← Nat.shiftRight_eq_div_pow]
    simp [hxj, Nat.testBit_shiftRight, hxj2]
  · have hj64lt : j < 64 := by omega
    by_cases hjk : j < k
    · have hnk : ¬ (j ≥ k) := by omega
      simp [hj64lt, hjk, hnk]
    · have hkj : k ≤ j := by omega
      have hadd : k + (j - k) = j := by omega
      rw [← Nat.shiftRight_eq_div_pow]
      simp [hj64lt, hjk, hkj, Nat.testBit_shiftRight, hadd]

/-- The complement of a mask inside a 64-bit word shares no bit with the mask. -/
theorem mask_and_self_eq_zero {m : Nat} (hm : m < WORDSIZE) :
    ((WORDSIZE - 1) ^^^ m) &&& m = 0 := by
  apply Nat.eq_of_testBit_eq
  intro j
  rw [Nat.testBit_and, Nat.testBit_xor, WORDSIZE, Nat.testBit_two_pow_sub_one]
  cases hmj : m.testBit j with
  | false => simp
  | true =>
    have hj : j < 64 := by
      by_contra hj
      rw [testBit_of_ge_64 hm (by omega)] at hmj
      exact Bool.noConfusion hmj
    simp [hj]

/-- Adding values with disjoint bits is bitwise or. -/
theorem add_eq_or_of_and_eq_zero : ∀ a b : Nat, a &&& b = 0 → a + b = a ||| b := by
  intro a
  induction a using Nat.strong_induction_on with
  | _ a ih =>
    intro b h
    rcases Nat.eq_zero_or_pos a with rfl | hpos
    · simp
    · have hhalf : a / 2 &&& b / 2 = 0 := by
        rw [← Nat.and_div_two, h]
      have hmod : ¬ (a % 2 = 1 ∧ b % 2 = 1) := by
        intro hc
        have h2 := Nat.and_mod_two_eq_one.mpr hc
        rw [h] at h2
        simp at h2
      have ihh : a / 2 + b / 2 = a / 2 ||| b / 2 := ih (a / 2) (by omega) (b / 2) hhalf
      have hor_div : (a ||| b) / 2 = a / 2 ||| b / 2 := Nat.or_div_two
      by_cases hab : a % 2 = 1 ∨ b % 2 = 1
      · have h4 : (a ||| b) % 2 = 1 := Nat.or_mod_two_eq_one.mpr hab
        omega
      · have h5 : ¬ ((a ||| b) % 2 = 1) := fun hh => hab (Nat.or_mod_two_eq_one.mp hh)
        have h4 : (a ||| b) % 2 = 0 := by omega
        omega

/-- The zero-alignment branch of `pad_uniform_buffer_size` is the identity. -/
theorem pad_zero (S : Nat) : pad_uniform_buffer_size 0 S = S := by
  simp [pad_uniform_buffer_size]

/-- With a power-of-two alignment and no 64-bit overflow, the mask arithmetic
of `pad_uniform_buffer_size` computes the round-up of `S + A - 1`. -/
theorem pad_pow2_eq {k S : Nat} (hk : k < 64) (hS : S + 2 ^ k ≤ WORDSIZE) :
    pad_uniform_buffer_size (2 ^ k) S = 2 ^ k * ((S + 2 ^ k - 1) / 2 ^ k) := by
  have hpos : 0 < 2 ^ k := Nat.two_pow_pos k
  have ht : S + 2 ^ k - 1 < WORDSIZE := by omega
  rw [pad_uniform_buffer_size, if_pos hpos, Nat.mod_eq_of_lt ht]
  exact and_high_mask ht (by omega)

/-- With a power-of-two alignment and no 64-bit overflow,
`pad_uniform_buffer_size` returns the smallest multiple of the alignment that
is at least the requested size. -/
theorem pad_pow2_least {k S : Nat} (hk : k < 64) (hS : S + 2 ^ k ≤ WORDSIZE) :
    IsLeastMultipleGE (2 ^ k) S (pad_uniform_buffer_size (2 ^ k) S) := by
  have hpos : 0 < 2 ^ k := Nat.two_pow_pos k
  rw [pad_pow2_eq hk hS]
  refine ⟨⟨_, rfl⟩, ?_, ?_⟩
  · have hdm := Nat.div_add_mod (S + 2 ^ k - 1) (2 ^ k)
    have hml := Nat.mod_lt (S + 2 ^ k - 1) hpos
    set pq := 2 ^ k * ((S + 2 ^ k - 1) / 2 ^ k) with hpq
    omega
  · intro w hw hSw
    obtain ⟨c, rfl⟩ := hw
    have h1 : S + 2 ^ k - 1 ≤ 2 ^ k * c + (2 ^ k - 1) := by
      rw [Nat.add_sub_assoc hpos]
      exact Nat.add_le_add_right hSw (2 ^ k - 1)
    have h2 : (S + 2 ^ k - 1) / 2 ^ k ≤ (2 ^ k * c + (2 ^ k - 1)) / 2 ^ k :=
      Nat.div_le_div_right h1
    rw [Nat.mul_add_div hpos, Nat.div_eq_of_lt (Nat.sub_lt hpos Nat.one_pos)] at h2
    exact Nat.mul_le_mul_left _ (by omega)

/-- The padding helper is idempotent for every representable alignment. -/
theorem pad_idem (A S : Nat) (hA : A < WORDSIZE) :
    pad_uniform_buffer_size A (pad_uniform_buffer_size A S)
      = pad_uniform_buffer_size A S := by
  rcases Nat.eq_zero_or_pos A with rfl | hpos
  · simp [pad_uniform_buffer_size]
  · have hW : 0 < WORDSIZE := Nat.two_pow_pos 64
    have hmW : A - 1 < WORDSIZE := by omega
    have hpad1 : pad_uniform_buffer_size A S
        = ((S + A - 1) % WORDSIZE) &&& ((WORDSIZE - 1) ^^^ (A - 1)) := by
      rw [pad_uniform_buffer_size, if_pos hpos]
    set m := A - 1 with hm
    set M := (WORDSIZE - 1) ^^^ m with hM
    set t := (S + A - 1) % WORDSIZE with ht
    have htW : t < WORDSIZE := Nat.mod_lt _ hW
    set y := t &&& M with hy
    have h1 : M &&& m = 0 := mask_and_self_eq_zero hmW
    have h2 : y &&& m = 0 := by
      rw [hy, Nat.and_assoc, h1, Nat.and_zero]
    have h3 : y + m = y ||| m := add_eq_or_of_and_eq_zero _ _ h2
    have hyW : y < WORDSIZE := lt_of_le_of_lt Nat.and_le_left htW
    have h4 : y ||| m < WORDSIZE := Nat.or_lt_two_pow hyW hmW
    rw [hpad1]
    rw [pad_uniform_buffer_size, if_pos hpos]
    have h5 : y + A - 1 = y + m := by omega
    rw [h5, h3, Nat.mod_eq_of_lt h4, Nat.and_distrib_right]
    have h6 : m &&& M = 0 := by
      rw [Nat.and_comm]
      exact h1
    rw [h6, Nat.or_zero, hy, Nat.and_assoc, Nat.and_self]

/-- C3 counterexample: with alignment 3 (not a power of two) and size 1 the
mask arithmetic returns 1, which is not a multiple of 3, so the padded value
is not the smallest multiple of the alignment at or above the size. -/
theorem c3_counterexample_pad_not_least_multiple :
    pad_uniform_buffer_size 3 1 = 1
    ∧ ¬ IsLeastMultipleGE 3 1 (pad_uniform_buffer_size 3 1) := by
  have h : pad_uniform_buffer_size 3 1 = 1 := by decide
  refine ⟨h, ?_⟩
  rw [h]
  rintro ⟨hdvd, -, -⟩
  omega

/-- C3 (amended): for the alignments the device can actually report - zero or
a power of two - `pad_uniform_buffer_size` behaves as specified: for a
power-of-two alignment `A` with no 64-bit overflow it returns the smallest
multiple of `A` at or above `S`; for `A = 0` it returns `S` unchanged; and it
is idempotent for every representable alignment, power of two or not. -/
theorem c3_pad_least_multiple_and_idempotent (A S k : Nat)
    (hk : k < 64) (hA : A = 2 ^ k) (hS : S + A ≤ WORDSIZE) :
    IsLeastMultipleGE A S (pad_uniform_buffer_size A S)
    ∧ (∀ T, pad_uniform_buffer_size 0 T = T)
    ∧ (∀ B T, B < WORDSIZE →
        pad_uniform_buffer_size B (pad_uniform_buffer_size B T)
          = pad_uniform_buffer_size B T) := by
  subst hA
  exact ⟨pad_pow2_least hk hS, pad_zero, fun B T hB => pad_idem B T hB⟩

/-- C3 witness: the amended theorem applied at alignment 256 and size 176,
where the padded size is the least multiple 256. -/
theorem c3_witness :
    IsLeastMultipleGE 256 176 (pad_uniform_buffer_size 256 176) :=
  (c3_pad_least_multiple_and_idempotent 256 176 8 (by omega) (by norm_num)
    (by norm_num [WORDSIZE])).1

/-- Appending actions one at a time starting from a queue accumulates them at
the back in registration order. -/
theorem foldl_push_function {α : Type} (fs q : List α) :
    List.foldl push_function q fs = q ++ fs := by
  induction fs generalizing q with
  | nil => simp
  | cons f t ih => simp [push_function, ih]

/-- C2: flushing the deletion queue after any sequence of pushes executes
exactly the registered actions in reverse registration order (hence each
exactly once) and empties the queue; flushing an empty queue executes
nothing; and pushing f1, f2, f3 then flushing runs f3, f2, f1. -/
theorem c2_deletion_queue_flush_reverse (α : Type) [DecidableEq α]
    (fs : List α) (f1 f2 f3 : α) :
    flush (List.foldl push_function ([] : List α) fs) = (fs.reverse, [])
    ∧ (∀ a : α, (flush (List.foldl push_function ([] : List α) fs)).1.count a
        = fs.count a)
    ∧ flush ([] : List α) = ([], [])
    ∧ flush (push_function (push_function (push_function [] f1) f2) f3)
        = ([f3, f2, f1], []) := by
  refine ⟨?_, ?_, rfl, ?_⟩
  · rw [foldl_push_function, flush]
    simp
  · intro a
    rw [foldl_push_function, flush]
    simp
  · simp [push_function, flush]

/-- Effect of one dispatch iteration on the pipeline bind counter and the
material sentinel: the counter grows exactly when the material differs from
the sentinel, and the sentinel afterwards holds the material just drawn. -/
theorem drawStep_pipeline (s : DispatchState) (o : RenderObject) :
    (drawStep s o).pipelineBindCount
      = s.pipelineBindCount + (if some o.material = s.lastMaterial then 0 else 1)
    ∧ (drawStep s o).lastMaterial = some o.material := by
  by_cases h1 : some o.material = s.lastMaterial <;>
    by_cases h2 : some o.mesh = s.lastMesh <;>
      simp [drawStep, h1, h2]

/-- Effect of one dispatch iteration on the vertex-buffer bind counter and the
mesh sentinel. -/
theorem drawStep_vertex (s : DispatchState) (o : RenderObject) :
    (drawStep s o).vertexBuffersBindCount
      = s.vertexBuffersBindCount + (if some o.mesh = s.lastMesh then 0 else 1)
    ∧ (drawStep s o).lastMesh = some o.mesh := by
  by_cases h1 : some o.material = s.lastMaterial <;>
    by_cases h2 : some o.mesh = s.lastMesh <;>
      simp [drawStep, h1, h2]

/-- Folding the dispatch step over a list adds to the pipeline bind counter
one unit per material change relative to the current sentinel. -/
theorem foldl_drawStep_pipeline (l : List RenderObject) :
    ∀ s : DispatchState,
      (l.foldl drawStep s).pipelineBindCount
        = s.pipelineBindCount
          + changesFrom s.lastMaterial (l.map RenderObject.material) := by
  induction l with
  | nil => intro s; simp [changesFrom]
  | cons o t ih =>
    intro s
    rw [List.foldl_cons, List.map_cons, changesFrom, ih (drawStep s o),
      (drawStep_pipeline s o).1, (drawStep_pipeline s o).2, Nat.add_assoc]

/-- Folding the dispatch step over a list adds to the vertex-buffer bind
counter one unit per mesh change relative to the current sentinel. -/
theorem foldl_drawStep_vertex (l : List RenderObject) :
    ∀ s : DispatchState,
      (l.foldl drawStep s).vertexBuffersBindCount
        = s.vertexBuffersBindCount
          + changesFrom s.lastMesh (l.map RenderObject.mesh) := by
  induction l with
  | nil => intro s; simp [changesFrom]
  | cons o t ih =>
    intro s
    rw [List.foldl_cons, List.map_cons, changesFrom, ih (drawStep s o),
      (drawStep_vertex s o).1, (drawStep_vertex s o).2, Nat.add_assoc]

/-- The dispatch loop of `draw_objects` issues one pipeline bind per maximal
material run and one vertex-buffer bind per maximal mesh run. -/
theorem draw_objects_counts (objs : List RenderObject) :
    (draw_objects objs).pipelineBindCount = runCount (objs.map RenderObject.material)
    ∧ (draw_objects objs).vertexBuffersBindCount
        = runCount (objs.map RenderObject.mesh) := by
  constructor
  · rw [draw_objects, foldl_drawStep_pipeline, runCount]
    simp
  · rw [draw_objects, foldl_drawStep_vertex, runCount]
    simp

/-- C1: over any render-object sequence (in particular any sorted one), the
dispatch loop issues exactly as many pipeline (and hence descriptor) rebinds
as there are maximal runs of equal consecutive materials, and exactly as many
vertex-buffer rebinds as there are maximal runs of equal consecutive meshes,
independently of the total object count; a pipeline rebind happens only when
the material differs from the last-bound-material sentinel (initially unset)
and a vertex-buffer rebind only when the mesh differs from the
last-bound-mesh sentinel, as the step function records. -/
theorem c1_dispatch_rebinds_equal_run_counts (objs : List RenderObject) :
    (draw_objects objs).pipelineBindCount = runCount (objs.map RenderObject.material)
    ∧ (draw_objects objs).vertexBuffersBindCount
        = runCount (objs.map RenderObject.mesh) :=
  draw_objects_counts objs

/-- C5: drawing at most `MAX_OBJECTS` objects is an unchecked precondition of
the transform-copy loop: below the capacity every per-object store lies inside
the per-frame object storage buffer; the loop writes one slot for every index
below the count with no capacity comparison on any path; and for every count
above the capacity some store falls outside the buffer. -/
theorem c5_object_buffer_unchecked_capacity (count : Nat)
    (hcount : count ≤ MAX_OBJECTS) :
    (∀ i ∈ objectWriteIndices count, objectWriteInBounds i)
    ∧ (∀ c : Nat, (objectWriteIndices c).length = c)
    ∧ (∀ c : Nat, MAX_OBJECTS < c →
        ∃ i ∈ objectWriteIndices c, ¬ objectWriteInBounds i) := by
  refine ⟨?_, ?_, ?_⟩
  · intro i hi
    rw [objectWriteIndices, List.mem_range] at hi
    simp only [objectWriteInBounds, objectWriteEnd, objectBufferSize,
      sizeofGPUObjectData, MAX_OBJECTS] at *
    omega
  · intro c
    rw [objectWriteIndices, List.length_range]
  · intro c hc
    refine ⟨MAX_OBJECTS, ?_, ?_⟩
    · rw [objectWriteIndices, List.mem_range]
      exact hc
    · simp only [objectWriteInBounds, objectWriteEnd, objectBufferSize,
        sizeofGPUObjectData, MAX_OBJECTS]
      omega

/-- C5 witness: with the count exactly at capacity, the last write (index
9999) stays inside the buffer. -/
theorem c5_witness : objectWriteInBounds 9999 :=
  (c5_object_buffer_unchecked_capacity 10000 (by norm_num [MAX_OBJECTS])).1 9999
    (by rw [objectWriteIndices, List.mem_range]; norm_num)

/-- C6: both the CPU-side scene-data write offset and the dynamic offset
passed at descriptor-bind time equal the padded stride times the frame index
`frameNumber mod FRAME_OVERLAP` (the 32-bit conversion of the bind offset is
lossless while the product fits), and in the scenario with alignment 256 and
scene-struct size 176 the padded stride is 256, giving offset 0 for frame
index 0 and 256 for frame index 1. -/
theorem c6_scene_dynamic_offset (A S f : Nat)
    (h : pad_uniform_buffer_size A S * frameIndex f < 2 ^ 32) :
    sceneDataWriteOffset A S f
      = pad_uniform_buffer_size A S * (f % FRAME_OVERLAP)
    ∧ uniform_offset A S f
      = pad_uniform_buffer_size A S * (f % FRAME_OVERLAP)
    ∧ pad_uniform_buffer_size 256 176 = 256
    ∧ sceneDataWriteOffset 256 176 0 = 0
    ∧ uniform_offset 256 176 0 = 0
    ∧ sceneDataWriteOffset 256 176 1 = 256
    ∧ uniform_offset 256 176 1 = 256 := by
  refine ⟨rfl, ?_, by decide, by decide, by decide, by decide, by decide⟩
  rw [uniform_offset]
  exact Nat.mod_eq_of_lt h

/-- C6 witness: the offsets for frame number 1 with alignment 256 and size
176, where the stride is 256. -/
theorem c6_witness :
    sceneDataWriteOffset 256 176 1
      = pad_uniform_buffer_size 256 176 * (1 % FRAME_OVERLAP) :=
  (c6_scene_dynamic_offset 256 176 1 (by decide)).1

/-- C7: a pipeline-creation failure inside `build_pipeline` is logged and
yields the null pipeline handle rather than terminating the process, and a
successful creation returns the new pipeline handle. -/
theorem c7_build_pipeline_failure_not_fatal :
    build_pipeline VkCreateResult.failure
      = EngineOutcome.ok VK_NULL_HANDLE ["failed to create pipeline"]
    ∧ (∀ p, build_pipeline (VkCreateResult.success p) = EngineOutcome.ok p [])
    ∧ (∀ r, build_pipeline r ≠ EngineOutcome.fatal) := by
  refine ⟨rfl, fun p => rfl, fun r => ?_⟩
  cases r <;> simp [build_pipeline]

/-- C8 counterexample: when the shader file fails to load, the caller lambda
returns its uninitialized local variable (here modelled with indeterminate
content 7), not the null module handle the claim promises. -/
theorem c8_counterexample_failed_load_not_null :
    loadShader 7 false VkCreateResult.failure
      = EngineOutcome.ok 7 ["Error loading shader module"]
    ∧ (7 : Nat) ≠ VK_NULL_HANDLE := by
  exact ⟨rfl, by decide⟩

/-- C8 (amended): when shader-module loading fails (file cannot be opened or
module creation fails) the failure is logged and the engine does not abort,
but `load_shader_module` leaves the out-parameter unassigned, so the caller
receives the indeterminate content of its uninitialized local rather than a
null handle; only on success does the caller receive the created module. -/
theorem c8_shader_load_failure_logged_not_fatal (uninit m : Nat) :
    loadShader uninit false VkCreateResult.failure
      = EngineOutcome.ok uninit ["Error loading shader module"]
    ∧ loadShader uninit false (VkCreateResult.success m)
      = EngineOutcome.ok uninit ["Error loading shader module"]
    ∧ loadShader uninit true VkCreateResult.failure
      = EngineOutcome.ok uninit ["Error loading shader module"]
    ∧ loadShader uninit true (VkCreateResult.success m)
      = EngineOutcome.ok m ["shader successfully loaded"]
    ∧ (∀ fo cr, loadShader uninit fo cr ≠ EngineOutcome.fatal)
    ∧ load_shader_module false VkCreateResult.failure = (false, none)
    ∧ load_shader_module true VkCreateResult.failure = (false, none)
    ∧ load_shader_module true (VkCreateResult.success m) = (true, some m) := by
  refine ⟨rfl, rfl, rfl, rfl, ?_, rfl, rfl, rfl⟩
  intro fo cr
  cases fo <;> cases cr <;> simp [loadShader, load_shader_module]

/-- Arithmetic reading of the sort order: an object precedes another exactly
when its material pointer is smaller, or the materials are equal and its mesh
pointer is not larger. -/
theorem renderObjLe_iff (a b : RenderObject) :
    renderObjLe a b
      ↔ (a.material < b.material
          ∨ (a.material = b.material ∧ a.mesh ≤ b.mesh)) := by
  simp only [renderObjLe, sortComparator]
  rcases Decidable.em (b.material = a.material) with h | h <;> simp [h] <;> omega

/-- The scene sort leaves the render-object sequence sorted under the
comparator order. -/
theorem sorted_sortRenderables (l : List RenderObject) :
    (sortRenderables l).Sorted renderObjLe :=
  List.sorted_insertionSort renderObjLe l

/-- C4: after the scene sort, materials are non-decreasing along the sequence
and, within equal materials, meshes are non-decreasing: the sequence is
non-decreasing in the lexicographic (material, mesh) key. -/
theorem c4_scene_sort_lexicographic (l : List RenderObject)
    (i j : Fin (sortRenderables l).length) (hij : i < j) :
    ((sortRenderables l).get i).material ≤ ((sortRenderables l).get j).material
    ∧ (((sortRenderables l).get i).material
          = ((sortRenderables l).get j).material →
        ((sortRenderables l).get i).mesh ≤ ((sortRenderables l).get j).mesh) := by
  have h := (sorted_sortRenderables l).rel_get_of_lt hij
  rw [renderObjLe_iff] at h
  omega

/-- C4 witness: positions 0 and 1 of a small sorted scene. -/
theorem c4_witness :
    ((sortRenderables [⟨1, 1⟩, ⟨0, 0⟩, ⟨7, 0⟩]).get ⟨0, by decide⟩).material
      ≤ ((sortRenderables [⟨1, 1⟩, ⟨0, 0⟩, ⟨7, 0⟩]).get ⟨1, by decide⟩).material
    ∧ (((sortRenderables [⟨1, 1⟩, ⟨0, 0⟩, ⟨7, 0⟩]).get ⟨0, by decide⟩).material
          = ((sortRenderables [⟨1, 1⟩, ⟨0, 0⟩, ⟨7, 0⟩]).get ⟨1, by decide⟩).material →
        ((sortRenderables [⟨1, 1⟩, ⟨0, 0⟩, ⟨7, 0⟩]).get ⟨0, by decide⟩).mesh
          ≤ ((sortRenderables [⟨1, 1⟩, ⟨0, 0⟩, ⟨7, 0⟩]).get ⟨1, by decide⟩).mesh) :=
  c4_scene_sort_lexicographic [⟨1, 1⟩, ⟨0, 0⟩, ⟨7, 0⟩]
    ⟨0, by decide⟩ ⟨1, by decide⟩ (by decide)

/-- C10: for the alignments the device can report (zero or a power of two),
every per-frame scene-data write of `sizeof(GPUSceneData)` bytes at the
dynamic offset stays inside the shared scene buffer of size
`FRAME_OVERLAP * padded stride`, and the byte ranges written for two frames
with different frame indices are disjoint. -/
theorem c10_scene_buffer_in_bounds_disjoint (A f g : Nat)
    (hA : A = 0 ∨ ∃ k, k < 64 ∧ A = 2 ^ k)
    (hfg : frameIndex f ≠ frameIndex g) :
    sceneDataWriteOffset A sizeofGPUSceneData f + sizeofGPUSceneData
        ≤ sceneParamBufferSize A sizeofGPUSceneData
    ∧ sceneDataWriteOffset A sizeofGPUSceneData g + sizeofGPUSceneData
        ≤ sceneParamBufferSize A sizeofGPUSceneData
    ∧ (sceneDataWriteOffset A sizeofGPUSceneData f + sizeofGPUSceneData
          ≤ sceneDataWriteOffset A sizeofGPUSceneData g
        ∨ sceneDataWriteOffset A sizeofGPUSceneData g + sizeofGPUSceneData
          ≤ sceneDataWriteOffset A sizeofGPUSceneData f) := by
  have hle : sizeofGPUSceneData ≤ pad_uniform_buffer_size A sizeofGPUSceneData := by
    rcases hA with rfl | ⟨k, hk, rfl⟩
    · rw [pad_zero]
    · refine (pad_pow2_least hk ?_).2.1
      have h1 : (2 : Nat) ^ k ≤ 2 ^ 63 := Nat.pow_le_pow_right (by omega) (by omega)
      have h2 : (2 : Nat) ^ 64 = 2 ^ 63 * 2 := by rw [← pow_succ]
      simp only [sizeofGPUSceneData, WORDSIZE]
      omega
  have hf : frameIndex f < 2 := by
    simp only [frameIndex, FRAME_OVERLAP]
    omega
  have hg : frameIndex g < 2 := by
    simp only [frameIndex, FRAME_OVERLAP]
    omega
  simp only [sceneDataWriteOffset, sceneParamBufferSize, FRAME_OVERLAP,
    sizeofGPUSceneData] at hle ⊢
  have hf01 : frameIndex f = 0 ∨ frameIndex f = 1 := by omega
  have hg01 : frameIndex g = 0 ∨ frameIndex g = 1 := by omega
  rcases hf01 with hf0 | hf0 <;> rcases hg01 with hg0 | hg0
  · exact absurd (hf0.trans hg0.symm) hfg
  · rw [hf0, hg0]
    omega
  · rw [hf0, hg0]
    omega
  · exact absurd (hf0.trans hg0.symm) hfg

/-- C10 witness: alignment 256 with frame numbers 0 and 1. -/
theorem c10_witness :
    sceneDataWriteOffset 256 sizeofGPUSceneData 0 + sizeofGPUSceneData
        ≤ sceneParamBufferSize 256 sizeofGPUSceneData
    ∧ sceneDataWriteOffset 256 sizeofGPUSceneData 1 + sizeofGPUSceneData
        ≤ sceneParamBufferSize 256 sizeofGPUSceneData
    ∧ (sceneDataWriteOffset 256 sizeofGPUSceneData 0 + sizeofGPUSceneData
          ≤ sceneDataWriteOffset 256 sizeofGPUSceneData 1
        ∨ sceneDataWriteOffset 256 sizeofGPUSceneData 1 + sizeofGPUSceneData
          ≤ sceneDataWriteOffset 256 sizeofGPUSceneData 0) :=
  c10_scene_buffer_in_bounds_disjoint 256 0 1
    (Or.inr ⟨8, by omega, by norm_num⟩) (by decide)

/-- Length of a flat map of a constant block over an index range. -/
theorem length_flatMap_range_const {α : Type} (L : List α) (n : Nat) :
    ((List.range n).flatMap (fun _ => L)).length = n * L.length := by
  induction n with
  | zero => simp
  | succ n ih =>
    rw [List.range_succ, List.flatMap_append, List.length_append, ih]
    simp [Nat.succ_mul]

/-- The scene built by `init_scene` holds 3 named objects, a 41 by 41 grid of
triangles and 1 map object: 1685 render objects. -/
theorem init_scene_objects_length : init_scene_objects.length = 1685 := by
  rw [init_scene_objects, List.length_append, List.length_append,
    length_flatMap_range_const]
  simp

/-- Elements collected by a flat map of a constant block over a nonempty
index range. -/
theorem toFinset_flatMap_range_const {α : Type} [DecidableEq α] (L : List α) :
    ∀ n, 0 < n → ((List.range n).flatMap (fun _ => L)).toFinset = L.toFinset := by
  intro n
  induction n with
  | zero => intro h; exact absurd h (Nat.lt_irrefl 0)
  | succ n ih =>
    intro _
    rw [List.range_succ, List.flatMap_append, List.toFinset_append]
    rcases Nat.eq_zero_or_pos n with rfl | hpos
    · simp
    · rw [ih hpos]
      simp

/-- The set of material pointers in the unsorted scene is exactly the three
registered materials. -/
theorem init_scene_materials_toFinset :
    (init_scene_objects.map RenderObject.material).toFinset
      = ({mat_defaultmesh, mat_defaultmesh_duplicate, mat_texturedmesh} : Finset Nat) := by
  rw [init_scene_objects, List.map_append, List.map_append, List.toFinset_append,
    List.toFinset_append]
  simp only [List.map_flatMap]
  rw [toFinset_flatMap_range_const _ 41 (by omega)]
  decide

/-- Unfolding of the run counter on a list with no previous sentinel. -/
theorem changesFrom_none_cons (x : Nat) (xs : List Nat) :
    changesFrom none (x :: xs) = 1 + changesFrom (some x) xs := by
  rw [changesFrom]
  simp

/-- On a non-decreasing list the number of maximal runs is the number of
distinct values. -/
theorem changesFrom_none_sorted_eq_card :
    ∀ ids : List Nat, ids.Sorted (· ≤ ·) →
      changesFrom none ids = ids.toFinset.card := by
  intro ids
  induction ids with
  | nil => intro h; simp [changesFrom]
  | cons x xs ih =>
    intro h
    cases xs with
    | nil => simp [changesFrom]
    | cons y t =>
      have hxs : (y :: t).Sorted (· ≤ ·) := h.of_cons
      have ihy := ih hxs
      rw [changesFrom_none_cons] at ihy ⊢
      rw [changesFrom]
      by_cases hxy : y = x
      · subst hxy
        rw [if_pos rfl, List.toFinset_cons, List.toFinset_cons, Finset.insert_idem,
          ← List.toFinset_cons]
        omega
      · have hxley : x ≤ y := List.rel_of_sorted_cons h y (by simp)
        have hnotmem : x ∉ (y :: t).toFinset := by
          simp only [List.mem_toFinset, List.mem_cons]
          rintro (rfl | hmem)
          · exact hxy rfl
          · have hyx := List.rel_of_sorted_cons hxs x hmem
            exact hxy (Nat.le_antisymm hyx hxley)
        rw [if_neg (by simpa using hxy), List.toFinset_cons,
          Finset.card_insert_of_not_mem hnotmem]
        omega

/-- Mapping the material pointer over a sequence sorted by the scene
comparator yields a non-decreasing list of material pointers. -/
theorem sorted_map_material (l : List RenderObject) (h : l.Sorted renderObjLe) :
    (l.map RenderObject.material).Sorted (· ≤ ·) :=
  List.Pairwise.map _
    (fun a b hab => ((renderObjLe_iff a b).mp hab).elim
      (fun h1 => Nat.le_of_lt h1) (fun h2 => Nat.le_of_eq h2.1)) h

/-- Sorting permutes the scene, so the set of material pointers is unchanged. -/
theorem toFinset_materials_sorted :
    (init_scene_renderables.map RenderObject.material).toFinset
      = (init_scene_objects.map RenderObject.material).toFinset :=
  List.toFinset_eq_of_perm _ _
    ((List.perm_insertionSort renderObjLe init_scene_objects).map RenderObject.material)

/-- Dispatching the sorted scene issues exactly one pipeline bind per distinct
material: three in total. -/
theorem init_scene_pipeline_binds :
    (draw_objects init_scene_renderables).pipelineBindCount = 3 := by
  have h2 : (init_scene_renderables.map RenderObject.material).Sorted (· ≤ ·) :=
    sorted_map_material _ (sorted_sortRenderables init_scene_objects)
  rw [(draw_objects_counts init_scene_renderables).1, runCount,
    changesFrom_none_sorted_eq_card _ h2, toFinset_materials_sorted,
    init_scene_materials_toFinset]
  decide

/-- C9 (amended): the scene built by `init_scene` - 3 named meshes under the
default material, the 41 by 41 triangle grid split across the two default
materials and 1 textured map object - contains 1685 render objects (not the
1850 the specification states), and dispatching the sorted scene issues
exactly 3 pipeline rebinds regardless of the object count. -/
theorem c9_scene_object_count_and_rebinds :
    init_scene_objects.length = 1685
    ∧ (draw_objects init_scene_renderables).pipelineBindCount = 3 :=
  ⟨init_scene_objects_length, init_scene_pipeline_binds⟩

/-- C9 counterexample: the scene does not contain 1850 render objects. -/
theorem c9_counterexample_object_count :
    ¬ init_scene_objects.length = 1850 := by
  rw [init_scene_objects_length]
  omega
